import Mathlib

set_option maxRecDepth 100000

/-!
Verification of the API response cache and resilient HTTP client of the
AI-notary repository (`src/ai_api.py`: classes `APICache` and `AIAPIClient`).

The embedding models:
* `hashlib.md5(...).hexdigest()` as a full MD5 implementation over byte lists
  (bytes are `Nat` below 256, 32-bit words are `Nat` reduced `% 2 ^ 32`);
* `json.dumps(cache_data, sort_keys=True)` for the fixed shape of `cache_data`
  built in `APICache._generate_cache_key` (a four-field object whose
  `messages` entry is a list of string-to-string objects); Python `float`
  values are only ever defaulted and serialized by the code under study, never
  computed with, so a temperature is represented by its JSON text;
* the SQLite `api_cache` table as a list of rows, with the SQL of `get`,
  `set` (INSERT OR REPLACE) and `cleanup_expired` translated to list
  operations, timestamps as `Int` seconds. The source reads two distinct
  clocks: `set` stamps expiry from the naive local `datetime.now()`, while
  `get` and `cleanup_expired` compare against SQLite's `CURRENT_TIMESTAMP`,
  which is UTC; the embedding therefore passes a `local_now` reading to the
  write side and a `utc_now` reading to the read side, with no relation
  assumed between the two;
* the retry loop of `AIAPIClient.call_ai_api` as a recursion over the
  attempt list `range 3`, with the upstream `session.post` modelled as a
  function from the attempt number to an outcome (an HTTP response, a read
  timeout or a connection error).
-/

/-! ### MD5 (model of `hashlib.md5(...).hexdigest()`) -/

/-- UTF-8 encoding of one code point, as `str.encode()` would produce. -/
def utf8Bytes (c : Nat) : List Nat :=
  if c < 0x80 then [c]
  else if c < 0x800 then [0xc0 + c / 64, 0x80 + c % 64]
  else if c < 0x10000 then [0xe0 + c / 4096, 0x80 + c / 64 % 64, 0x80 + c % 64]
  else [0xf0 + c / 262144, 0x80 + c / 4096 % 64, 0x80 + c / 64 % 64, 0x80 + c % 64]

def bytesOfChars : List Char → List Nat
  | [] => []
  | c :: cs => utf8Bytes c.toNat ++ bytesOfChars cs

/-- Bytes of a string under UTF-8, as Python's `str.encode()`. -/
def strBytes (s : String) : List Nat := bytesOfChars s.data

/-- Left rotation of a 32-bit word (argument below `2 ^ 32`). -/
def rotl32 (x s : Nat) : Nat := x % 2 ^ (32 - s) * 2 ^ s + x / 2 ^ (32 - s)

/-- The 64 MD5 sine-derived constants. -/
def md5K : List Nat :=
  [0xd76aa478, 0xe8c7b756, 0x242070db, 0xc1bdceee,
   0xf57c0faf, 0x4787c62a, 0xa8304613, 0xfd469501,
   0x698098d8, 0x8b44f7af, 0xffff5bb1, 0x895cd7be,
   0x6b901122, 0xfd987193, 0xa679438e, 0x49b40821,
   0xf61e2562, 0xc040b340, 0x265e5a51, 0xe9b6c7aa,
   0xd62f105d, 0x02441453, 0xd8a1e681, 0xe7d3fbc8,
   0x21e1cde6, 0xc33707d6, 0xf4d50d87, 0x455a14ed,
   0xa9e3e905, 0xfcefa3f8, 0x676f02d9, 0x8d2a4c8a,
   0xfffa3942, 0x8771f681, 0x6d9d6122, 0xfde5380c,
   0xa4beea44, 0x4bdecfa9, 0xf6bb4b60, 0xbebfbc70,
   0x289b7ec6, 0xeaa127fa, 0xd4ef3085, 0x04881d05,
   0xd9d4d039, 0xe6db99e5, 0x1fa27cf8, 0xc4ac5665,
   0xf4292244, 0x432aff97, 0xab9423a7, 0xfc93a039,
   0x655b59c3, 0x8f0ccc92, 0xffeff47d, 0x85845dd1,
   0x6fa87e4f, 0xfe2ce6e0, 0xa3014314, 0x4e0811a1,
   0xf7537e82, 0xbd3af235, 0x2ad7d2bb, 0xeb86d391]

/-- The 64 MD5 per-round left-rotation amounts. -/
def md5S : List Nat :=
  [7, 12, 17, 22, 7, 12, 17, 22, 7, 12, 17, 22, 7, 12, 17, 22,
   5, 9, 14, 20, 5, 9, 14, 20, 5, 9, 14, 20, 5, 9, 14, 20,
   4, 11, 16, 23, 4, 11, 16, 23, 4, 11, 16, 23, 4, 11, 16, 23,
   6, 10, 15, 21, 6, 10, 15, 21, 6, 10, 15, 21, 6, 10, 15, 21]

/-- The MD5 round mixing function for round `i`. -/
def md5F (i b c d : Nat) : Nat :=
  if i < 16 then b &&& c ||| (0xffffffff ^^^ b) &&& d
  else if i < 32 then d &&& b ||| (0xffffffff ^^^ d) &&& c
  else if i < 48 then b ^^^ c ^^^ d
  else c ^^^ (b ||| (0xffffffff ^^^ d))

/-- The MD5 message-word index for round `i`. -/
def md5G (i : Nat) : Nat :=
  if i < 16 then i
  else if i < 32 then (5 * i + 1) % 16
  else if i < 48 then (3 * i + 5) % 16
  else 7 * i % 16

/-- One MD5 round on the state `(a, b, c, d)`. -/
def md5Round (M : List Nat) (st : Nat × Nat × Nat × Nat) (i : Nat) : Nat × Nat × Nat × Nat :=
  match st with
  | (a, b, c, d) =>
    let f := (md5F i b c d + a + md5K.getD i 0 + M.getD (md5G i) 0) % 2 ^ 32
    (d, (b + rotl32 f (md5S.getD i 0)) % 2 ^ 32, b, c)

/-- Little-endian 32-bit words of a byte list. -/
def md5Words : List Nat → List Nat
  | b0 :: b1 :: b2 :: b3 :: rest =>
      (b0 + 256 * b1 + 65536 * b2 + 16777216 * b3) :: md5Words rest
  | _ => []

/-- Process one 64-byte block. -/
def md5ProcessBlock (st : Nat × Nat × Nat × Nat) (block : List Nat) : Nat × Nat × Nat × Nat :=
  let M := md5Words block
  match st, (List.range 64).foldl (md5Round M) st with
  | (a0, b0, c0, d0), (a, b, c, d) =>
    ((a0 + a) % 2 ^ 32, (b0 + b) % 2 ^ 32, (c0 + c) % 2 ^ 32, (d0 + d) % 2 ^ 32)

/-- MD5 padding: a `0x80` byte, zeros to 56 mod 64, then the bit length in
little-endian over eight bytes. -/
def md5Pad (msg : List Nat) : List Nat :=
  let len := msg.length
  msg ++ [0x80] ++ List.replicate ((119 - len % 64) % 64) 0
      ++ (List.range 8).map fun i => 8 * len / 2 ^ (8 * i) % 256

/-- Fold the blocks; the fuel is the number of 64-byte blocks. -/
def md5Blocks : Nat → List Nat → Nat × Nat × Nat × Nat → Nat × Nat × Nat × Nat
  | 0, _, st => st
  | n + 1, bytes, st => md5Blocks n (bytes.drop 64) (md5ProcessBlock st (bytes.take 64))

/-- The four-word MD5 state of a message. -/
def md5Digest (msg : List Nat) : Nat × Nat × Nat × Nat :=
  let padded := md5Pad msg
  md5Blocks (padded.length / 64) padded (0x67452301, 0xefcdab89, 0x98badcfe, 0x10325476)

def hexDigitChar (n : Nat) : Char :=
  if n < 10 then Char.ofNat (48 + n) else Char.ofNat (87 + n)

def byteHex (b : Nat) : String :=
  String.mk [hexDigitChar (b / 16 % 16), hexDigitChar (b % 16)]

/-- Hex of a 32-bit word, rendered byte-wise little-endian as MD5 requires. -/
def wordHexLE (w : Nat) : String :=
  byteHex (w % 256) ++ byteHex (w / 256 % 256) ++ byteHex (w / 65536 % 256)
    ++ byteHex (w / 16777216 % 256)

/-- The lowercase hex digest, as `hashlib.md5(x).hexdigest()`. -/
def md5hex (msg : List Nat) : String :=
  match md5Digest msg with
  | (a, b, c, d) => wordHexLE a ++ wordHexLE b ++ wordHexLE c ++ wordHexLE d

example : md5hex (strBytes "") = "d41d8cd98f00b204e9800998ecf8427e" := by decide

example : md5hex (strBytes "abc") = "900150983cd24fb0d6963f7d28e17f72" := by decide

example : md5hex (strBytes
    "12345678901234567890123456789012345678901234567890123456789012345678901234567890")
    = "57edf4a22be3c955ac49da2e2107b67a" := by decide

/-! ### Canonical JSON serialization
`json.dumps(cache_data, sort_keys=True)` for the fixed shape built in
`APICache._generate_cache_key`: the default separators are `", "` and
`": "`, `ensure_ascii` escapes everything outside `0x20`-`0x7e`, and
`sort_keys` sorts every object's fields by key. -/

/-- A conversation turn is a Python `Dict[str, str]`, kept in insertion
order as Python dicts are; `json.dumps` serializes it with sorted keys. -/
abbrev Message := List (String × String)

def hex4 (n : Nat) : String :=
  "\\u" ++ String.mk [hexDigitChar (n / 4096 % 16), hexDigitChar (n / 256 % 16),
    hexDigitChar (n / 16 % 16), hexDigitChar (n % 16)]

/-- One character as `json.dumps` renders it with `ensure_ascii=True`. -/
def jsonEscapeChar (c : Char) : String :=
  let n := c.toNat
  if n = 34 then "\\\""
  else if n = 92 then "\\\\"
  else if n = 8 then "\\b"
  else if n = 9 then "\\t"
  else if n = 10 then "\\n"
  else if n = 12 then "\\f"
  else if n = 13 then "\\r"
  else if n < 32 then hex4 n
  else if n < 127 then String.mk [c]
  else if n < 65536 then hex4 n
  else hex4 (55296 + (n - 65536) / 1024) ++ hex4 (56320 + (n - 65536) % 1024)

/-- A JSON string literal with quotes, as `json.dumps` renders a `str`. -/
def jsonStr (s : String) : String :=
  "\"" ++ String.join (s.data.map jsonEscapeChar) ++ "\""

/-- Lexicographic code-point comparison of character lists, the order Python
uses on `str`. -/
def charLE : List Char → List Char → Bool
  | [], _ => true
  | _ :: _, [] => false
  | a :: as, b :: bs =>
      if a.toNat = b.toNat then charLE as bs
      else decide (a.toNat < b.toNat)

/-- Python's `<=` on strings. -/
def pyStrLE (a b : String) : Bool := charLE a.data b.data

/-- Sort-key order on dict fields: by key, under Python string comparison. -/
def fieldLE (a b : String × String) : Prop := pyStrLE a.1 b.1 = true

instance : DecidableRel fieldLE := fun a b =>
  inferInstanceAs (Decidable (pyStrLE a.1 b.1 = true))

/-- Sorting a dict's fields by key, as `sort_keys=True` does. Any correct
stable sort models CPython's; on dicts (whose keys are distinct) the result
is determined by the key order alone. -/
def sortFields (m : Message) : Message :=
  List.insertionSort fieldLE m

def dumpField (p : String × String) : String :=
  jsonStr p.1 ++ ": " ++ jsonStr p.2

/-- A `Dict[str, str]` as `json.dumps(..., sort_keys=True)` renders it. -/
def dumpMessage (m : Message) : String :=
  "\x7b" ++ String.intercalate ", " ((sortFields m).map dumpField) ++ "\x7d"

/-- A list of dicts, serialized in its given order. -/
def dumpMessages (ms : List Message) : String :=
  "[" ++ String.intercalate ", " (ms.map dumpMessage) ++ "]"

/-- The string `json.dumps(cache_data, sort_keys=True)` for the dict
`cache_data` of `_generate_cache_key`. Sorting the four top-level keys
`messages, model, temperature, max_tokens` yields the fixed order
`max_tokens, messages, model, temperature` (checked by the example below);
`temperature` is spliced in as its JSON text and `max_tokens` renders as a
decimal integer. -/
def cache_string (messages : List Message) (model temperature : String)
    (max_tokens : Nat) : String :=
  "\x7b\"max_tokens\": " ++ toString max_tokens
    ++ ", \"messages\": " ++ dumpMessages messages
    ++ ", \"model\": " ++ jsonStr model
    ++ ", \"temperature\": " ++ temperature ++ "\x7d"

example :
    List.insertionSort (fun a b : String => pyStrLE a b = true)
      ["messages", "model", "temperature", "max_tokens"]
    = ["max_tokens", "messages", "model", "temperature"] := by decide

example :
    cache_string [[("role", "system"), ("content", "hi")]] "deepseek-chat" "0.2" 500
    = "\x7b\"max_tokens\": 500, \"messages\": [\x7b\"content\": \"hi\", \"role\": \"system\"\x7d], \"model\": \"deepseek-chat\", \"temperature\": 0.2\x7d" := by
  decide

/-- `APICache._generate_cache_key` (src/ai_api.py lines 42-51): the MD5 hex
digest of the canonical JSON serialization of the request parameters. -/
def _generate_cache_key (messages : List Message) (model temperature : String)
    (max_tokens : Nat) : String :=
  md5hex (strBytes (cache_string messages model temperature max_tokens))

example :
    _generate_cache_key [[("role", "a")], [("role", "b")]] "m" "0.2" 100
    = "19af25edc556585f49346b72d5673725" := by decide

example :
    _generate_cache_key [[("role", "b")], [("role", "a")]] "m" "0.2" 100
    = "c7442f5832ca3e3c888ef6ace235d28a" := by decide

example :
    _generate_cache_key [[("role", "user"), ("content", "hi")]] "m" "0.2" 100
    = "94379ac568960fb80afdf830864b591f" := by decide

/-! ### The cache store
The SQLite table `api_cache(cache_key PRIMARY KEY, response, created_at,
expires_at)` is a list of rows; timestamps are `Int` seconds on one clock.
Row order is irrelevant to the modelled queries because the key is a
primary key, kept unique by `INSERT OR REPLACE`. -/

/-- The configuration surface read by `ai_api.py` (src/config.py): caching
switch, TTL in minutes, default sampling parameters, provider and model. -/
structure Config where
  ENABLE_RESPONSE_CACHING : Bool
  CACHE_DURATION_MINUTES : Int
  DEFAULT_TEMPERATURE : String
  DEFAULT_MAX_TOKENS : Nat
  API_PROVIDER : String
  CURRENT_MODEL : String
deriving DecidableEq

/-- One row of the `api_cache` table (`created_at` is never read back). -/
structure CacheEntry where
  cache_key : String
  response : String
  expires_at : Int
deriving DecidableEq

abbrev CacheDB := List CacheEntry

/-- The SELECT of `APICache.get`: the response of a row matching the key
whose `expires_at` is strictly in the future. -/
def cacheSelect (db : CacheDB) (cache_key : String) (now : Int) : Option String :=
  ((db.filter fun e => e.cache_key == cache_key && decide (now < e.expires_at)).head?).map
    (·.response)

/-- `INSERT OR REPLACE`: the row for the key is replaced, all others kept. -/
def cacheInsertOrReplace (db : CacheDB) (cache_key response : String)
    (expires_at : Int) : CacheDB :=
  (db.filter fun e => e.cache_key != cache_key) ++ [⟨cache_key, response, expires_at⟩]

/-- A result of `APICache.get` together with the number of storage
connections it opened. -/
structure GetResult where
  value : Option String
  storeAccesses : Nat
deriving DecidableEq

/-- `APICache.get` (src/ai_api.py lines 53-67): `None` without touching
storage when caching is disabled; otherwise the unexpired row for the
derived key, if any. `now` is the read-side clock, SQLite's UTC
`CURRENT_TIMESTAMP`. -/
def APICache.get (cfg : Config) (db : CacheDB) (now : Int) (messages : List Message)
    (model temperature : String) (max_tokens : Nat) : GetResult :=
  if !cfg.ENABLE_RESPONSE_CACHING then ⟨none, 0⟩
  else
    let cache_key := _generate_cache_key messages model temperature max_tokens
    ⟨cacheSelect db cache_key now, 1⟩

/-- `APICache.set` (src/ai_api.py lines 69-83): a no-op without touching
storage when caching is disabled; otherwise `INSERT OR REPLACE` with
`expires_at = datetime.now() + timedelta(minutes=CACHE_DURATION_MINUTES)`.
`local_now` is the `datetime.now()` reading — the host's naive local time,
a different clock from the UTC `CURRENT_TIMESTAMP` that `APICache.get`
compares against. Returns the new table and the number of storage
connections opened. -/
def APICache.set (cfg : Config) (db : CacheDB) (local_now : Int)
    (messages : List Message) (model temperature : String) (max_tokens : Nat)
    (response : String) : CacheDB × Nat :=
  if !cfg.ENABLE_RESPONSE_CACHING then (db, 0)
  else
    let cache_key := _generate_cache_key messages model temperature max_tokens
    let expires_at := local_now + 60 * cfg.CACHE_DURATION_MINUTES
    (cacheInsertOrReplace db cache_key response expires_at, 1)

/-- `APICache.cleanup_expired` (src/ai_api.py lines 85-90):
`DELETE FROM api_cache WHERE expires_at <= CURRENT_TIMESTAMP`. -/
def cleanup_expired (db : CacheDB) (now : Int) : CacheDB :=
  db.filter fun e => decide (now < e.expires_at)

/-- `APICache.get` with the storage I/O outcome made explicit: `fault` is
the error raised by `sqlite3.connect/execute`, if any. The method body has
no `try/except`, so after the caching-switch check any storage error
propagates to the caller. -/
def APICache.getE (cfg : Config) (db : CacheDB) (fault : Option String) (now : Int)
    (messages : List Message) (model temperature : String) (max_tokens : Nat) :
    Except String (Option String) :=
  if !cfg.ENABLE_RESPONSE_CACHING then .ok none
  else
    let cache_key := _generate_cache_key messages model temperature max_tokens
    match fault with
    | some err => .error err
    | none => .ok (cacheSelect db cache_key now)

/-- `APICache.set` with the storage I/O outcome made explicit; as in the
source there is no handler, so any storage error propagates. `local_now`
is the `datetime.now()` reading, as in `APICache.set`. -/
def APICache.setE (cfg : Config) (db : CacheDB) (fault : Option String)
    (local_now : Int) (messages : List Message) (model temperature : String)
    (max_tokens : Nat) (response : String) : Except String CacheDB :=
  if !cfg.ENABLE_RESPONSE_CACHING then .ok db
  else
    let cache_key := _generate_cache_key messages model temperature max_tokens
    let expires_at := local_now + 60 * cfg.CACHE_DURATION_MINUTES
    match fault with
    | some err => .error err
    | none => .ok (cacheInsertOrReplace db cache_key response expires_at)

/-! ### The resilient client
`AIAPIClient.call_ai_api` (src/ai_api.py lines 128-200). One upstream
attempt (`session.post`) either yields an HTTP response or raises a read
timeout or connection error; a 200 body's parsed
`choices[0].message.content` is carried as the `content` field. -/

/-- The outcome of the upstream POST of one attempt. -/
inductive Outcome where
  | response (status : Nat) (text : String) (content : String)
  | readTimeout (msg : String)
  | connError (msg : String)

/-- The retryable status codes, the tuple of the loop's guard
`status_code not in (429, 500, 502, 503, 504)`. -/
def retryableCodes : List Nat := [429, 500, 502, 503, 504]

/-- An outcome the loop retries after: a retryable status code, a read
timeout or a connection error. -/
def isRetryable : Outcome → Prop
  | .response code _ _ => code ∈ retryableCodes
  | .readTimeout _ => True
  | .connError _ => True

/-- The `last_error` text recorded for a retryable outcome. -/
def failText : Outcome → String
  | .response code text _ => "HTTP " ++ toString code ++ ": " ++ text
  | .readTimeout msg => msg
  | .connError msg => msg

/-- The observable trace of one `call_ai_api` invocation. -/
structure CallTrace where
  result : Except String String
  db : CacheDB
  posts : Nat
  sleeps : List ℚ
  storeAccesses : Nat

/-- Python truthiness of the `Optional[str]` returned by the cache. -/
def pyTruthy : Option String → Bool
  | none => false
  | some s => !(s == "")

/-- `AIAPIClient._optimize_parameters_for_speed` (src/ai_api.py lines
116-126): default the temperature, cap the token budget at 600 (and at 500
for the openai provider). -/
def _optimize_parameters_for_speed (cfg : Config) (temperature : Option String)
    (max_tokens : Option Nat) : String × Nat :=
  let optimized_temp := temperature.getD cfg.DEFAULT_TEMPERATURE
  let optimized_tokens :=
    match max_tokens with
    | some m => m
    | none => min cfg.DEFAULT_MAX_TOKENS 600
  let optimized_tokens :=
    if cfg.API_PROVIDER = "openai" then min optimized_tokens 500 else optimized_tokens
  (optimized_temp, optimized_tokens)

/-- The retry loop of `call_ai_api` (src/ai_api.py lines 169-200) over the
remaining attempt numbers of `range(3)`. On 200: cache the content (the
`set` stamps expiry from the local `datetime.now()` reading `local_now`)
and return it. On a status outside the retryable tuple: raise with status
and body. Otherwise record `last_error`, sleep `0.5 * 1.5 ** attempt` when
`attempt < 2`, and move on; an empty attempt list raises with the last
error. -/
def callLoop (cfg : Config) (db : CacheDB) (local_now : Int) (upstream : Nat → Outcome)
    (messages : List Message) (model temperature : String) (max_tokens : Nat) :
    List Nat → String → CallTrace
  | [], last_error =>
      ⟨.error ("API call failed after retries - " ++ last_error), db, 0, [], 0⟩
  | attempt :: rest, _ =>
      let backoff : List ℚ := if attempt < 2 then [(0.5 : ℚ) * 1.5 ^ attempt] else []
      match upstream attempt with
      | .response code text content =>
          if code = 200 then
            let s := APICache.set cfg db local_now messages model temperature
              max_tokens content
            ⟨.ok content, s.1, 1, [], s.2⟩
          else if code ∈ retryableCodes then
            let t := callLoop cfg db local_now upstream messages model temperature
              max_tokens rest ("HTTP " ++ toString code ++ ": " ++ text)
            ⟨t.result, t.db, 1 + t.posts, backoff ++ t.sleeps, t.storeAccesses⟩
          else
            ⟨.error ("API call failed: " ++ toString code ++ " - " ++ text), db, 1, [], 0⟩
      | .readTimeout msg =>
          let t := callLoop cfg db local_now upstream messages model temperature
            max_tokens rest msg
          ⟨t.result, t.db, 1 + t.posts, backoff ++ t.sleeps, t.storeAccesses⟩
      | .connError msg =>
          let t := callLoop cfg db local_now upstream messages model temperature
            max_tokens rest msg
          ⟨t.result, t.db, 1 + t.posts, backoff ++ t.sleeps, t.storeAccesses⟩
/-- `AIAPIClient.call_ai_api`: optimize the parameters, short-circuit on a
truthy cached response, otherwise run the retry loop with `last_error`
initialized to the empty string. The cache read compares against the UTC
reading `utc_now` (SQLite's `CURRENT_TIMESTAMP`); a successful attempt's
cache write stamps expiry from the local reading `local_now`
(`datetime.now()`). The two clock readings are independent inputs. -/
def call_ai_api (cfg : Config) (db : CacheDB) (utc_now local_now : Int)
    (upstream : Nat → Outcome) (messages : List Message)
    (temperature : Option String) (max_tokens : Option Nat) : CallTrace :=
  let opt := _optimize_parameters_for_speed cfg temperature max_tokens
  let g := APICache.get cfg db utc_now messages cfg.CURRENT_MODEL opt.1 opt.2
  if pyTruthy g.value then
    ⟨.ok (g.value.getD ""), db, 0, [], g.storeAccesses⟩
  else
    let t := callLoop cfg db local_now upstream messages cfg.CURRENT_MODEL opt.1 opt.2
      (List.range 3) ""
    ⟨t.result, t.db, t.posts, t.sleeps, g.storeAccesses + t.storeAccesses⟩

/-! ### Order-theoretic facts about the field sort -/

lemma charToNat_inj {a b : Char} (h : a.toNat = b.toNat) : a = b := by
  unfold Char.toNat at h
  exact Char.eq_of_val_eq (UInt32.toNat.inj h)

lemma string_data_inj {a b : String} (h : a.data = b.data) : a = b := by
  cases a
  cases b
  exact congrArg String.mk h

lemma charLE_total : ∀ xs ys : List Char, charLE xs ys = true ∨ charLE ys xs = true
  | [], _ => Or.inl rfl
  | _ :: _, [] => Or.inr rfl
  | x :: xs, y :: ys => by
      by_cases h : x.toNat = y.toNat
      · rcases charLE_total xs ys with h' | h'
        · exact Or.inl (by rw [charLE, if_pos h]; exact h')
        · exact Or.inr (by rw [charLE, if_pos h.symm]; exact h')
      · rcases Nat.lt_or_ge x.toNat y.toNat with hlt | hge
        · exact Or.inl (by rw [charLE, if_neg h]; exact decide_eq_true hlt)
        · have hlt : y.toNat < x.toNat := lt_of_le_of_ne hge fun e => h e.symm
          have h' : ¬y.toNat = x.toNat := fun e => h e.symm
          exact Or.inr (by rw [charLE, if_neg h']; exact decide_eq_true hlt)

lemma charLE_trans : ∀ xs ys zs : List Char,
    charLE xs ys = true → charLE ys zs = true → charLE xs zs = true
  | [], _, _, _, _ => rfl
  | _ :: _, [], _, h1, _ => by simp [charLE] at h1
  | _ :: _, _ :: _, [], _, h2 => by simp [charLE] at h2
  | x :: xs, y :: ys, z :: zs, h1, h2 => by
      rw [charLE] at h1 h2 ⊢
      by_cases hxy : x.toNat = y.toNat <;> by_cases hyz : y.toNat = z.toNat
      · rw [if_pos hxy] at h1
        rw [if_pos hyz] at h2
        rw [if_pos (hxy.trans hyz)]
        exact charLE_trans xs ys zs h1 h2
      · rw [if_pos hxy] at h1
        rw [if_neg hyz] at h2
        have h2' := of_decide_eq_true h2
        rw [if_neg (by omega)]
        exact decide_eq_true (by omega)
      · rw [if_neg hxy] at h1
        rw [if_pos hyz] at h2
        have h1' := of_decide_eq_true h1
        rw [if_neg (by omega)]
        exact decide_eq_true (by omega)
      · rw [if_neg hxy] at h1
        rw [if_neg hyz] at h2
        have h1' := of_decide_eq_true h1
        have h2' := of_decide_eq_true h2
        rw [if_neg (by omega)]
        exact decide_eq_true (by omega)

lemma charLE_antisymm : ∀ xs ys : List Char,
    charLE xs ys = true → charLE ys xs = true → xs = ys
  | [], [], _, _ => rfl
  | [], _ :: _, _, h2 => by simp [charLE] at h2
  | _ :: _, [], h1, _ => by simp [charLE] at h1
  | x :: xs, y :: ys, h1, h2 => by
      rw [charLE] at h1 h2
      by_cases h : x.toNat = y.toNat
      · rw [if_pos h] at h1
        rw [if_pos h.symm] at h2
        rw [charToNat_inj h, charLE_antisymm xs ys h1 h2]
      · rw [if_neg h] at h1
        rw [if_neg (fun e => h e.symm)] at h2
        have h1' := of_decide_eq_true h1
        have h2' := of_decide_eq_true h2
        omega

instance : IsTotal (String × String) fieldLE :=
  ⟨fun a b => charLE_total a.1.data b.1.data⟩

instance : IsTrans (String × String) fieldLE :=
  ⟨fun _ _ _ h1 h2 => charLE_trans _ _ _ h1 h2⟩

/-- The strict companion of `fieldLE` used to conclude that two sorted
permutations with distinct keys coincide. -/
def fieldLtKey (a b : String × String) : Prop := fieldLE a b ∧ a.1 ≠ b.1

instance : IsAntisymm (String × String) fieldLtKey :=
  ⟨fun _ _ h1 h2 =>
    absurd (string_data_inj (charLE_antisymm _ _ h1.1 h2.1)) h1.2⟩

/-- Two field lists that are permutations of each other with pairwise
distinct keys sort identically: `sort_keys=True` erases dict field order. -/
lemma sortFields_eq_of_perm {m1 m2 : Message} (hp : m1.Perm m2)
    (hnd : (m1.map Prod.fst).Nodup) : sortFields m1 = sortFields m2 := by
  have hperm : (sortFields m1).Perm (sortFields m2) :=
    (List.perm_insertionSort fieldLE m1).trans
      (hp.trans (List.perm_insertionSort fieldLE m2).symm)
  have hnd1 : ((sortFields m1).map Prod.fst).Nodup :=
    (((List.perm_insertionSort fieldLE m1).map Prod.fst).nodup_iff).mpr hnd
  have hnd2 : ((sortFields m2).map Prod.fst).Nodup :=
    ((hperm.map Prod.fst).nodup_iff).mp hnd1
  have hne1 : List.Pairwise (fun a b : String × String => a.1 ≠ b.1) (sortFields m1) :=
    List.pairwise_map.mp hnd1
  have hne2 : List.Pairwise (fun a b : String × String => a.1 ≠ b.1) (sortFields m2) :=
    List.pairwise_map.mp hnd2
  exact List.eq_of_perm_of_sorted (r := fieldLtKey) hperm
    ((List.sorted_insertionSort fieldLE m1).and hne1)
    ((List.sorted_insertionSort fieldLE m2).and hne2)

lemma dumpMessage_eq_of_perm {m1 m2 : Message} (hp : m1.Perm m2)
    (hnd : (m1.map Prod.fst).Nodup) : dumpMessage m1 = dumpMessage m2 := by
  rw [dumpMessage, dumpMessage, sortFields_eq_of_perm hp hnd]

lemma map_dumpMessage_eq_of_perm {ms1 ms2 : List Message}
    (h : List.Forall₂ (fun a b => a.Perm b) ms1 ms2) :
    (∀ m ∈ ms1, (m.map Prod.fst).Nodup) →
    ms1.map dumpMessage = ms2.map dumpMessage := by
  induction h with
  | nil => intro; rfl
  | cons hab _ ih =>
      intro hnd
      simp only [List.map_cons]
      rw [dumpMessage_eq_of_perm hab (hnd _ (List.mem_cons_self _ _)),
        ih fun m hm => hnd m (List.mem_cons_of_mem _ hm)]

lemma dumpMessages_eq_of_perm {ms1 ms2 : List Message}
    (h : List.Forall₂ (fun a b => a.Perm b) ms1 ms2)
    (hnd : ∀ m ∈ ms1, (m.map Prod.fst).Nodup) :
    dumpMessages ms1 = dumpMessages ms2 := by
  rw [dumpMessages, dumpMessages, map_dumpMessage_eq_of_perm h hnd]

/-! ### Concrete fixtures shared by witnesses and counterexamples -/

/-- A configuration with caching on, the defaults of src/config.py. -/
def cfgOn : Config := ⟨true, 60, "0.2", 800, "openai", "gpt-4o-mini"⟩

/-- The same configuration with caching switched off. -/
def cfgOff : Config := ⟨false, 60, "0.2", 800, "openai", "gpt-4o-mini"⟩

def msgsW : List Message := [[("role", "user"), ("content", "hello")]]

/-- The cache key of `msgsW` under `cfgOn` after parameter optimization
(temperature defaulted to "0.2", token budget clamped to 500). -/
def keyW : String := _generate_cache_key msgsW "gpt-4o-mini" "0.2" 500

def dbHit : CacheDB := [⟨keyW, "cached", 1000000⟩]

def dbEmptyHit : CacheDB := [⟨keyW, "", 1000000⟩]

/-! ### Claim theorems: the cache store -/

/-- C2: a read via `APICache.get` never returns an expired value — any
returned value comes from a stored row for the derived key whose
`expires_at` is strictly in the future at read time. -/
theorem get_returns_only_unexpired (cfg : Config) (db : CacheDB) (now : Int)
    (messages : List Message) (model temperature : String) (max_tokens : Nat)
    (v : String)
    (h : (APICache.get cfg db now messages model temperature max_tokens).value = some v) :
    ∃ e ∈ db, e.cache_key = _generate_cache_key messages model temperature max_tokens ∧
      e.response = v ∧ now < e.expires_at := by
  unfold APICache.get at h
  by_cases hc : cfg.ENABLE_RESPONSE_CACHING
  · rw [hc] at h
    simp only [Bool.not_true, Bool.false_eq_true, if_false, cacheSelect] at h
    cases hf : List.filter
        (fun e => e.cache_key == _generate_cache_key messages model temperature max_tokens
          && decide (now < e.expires_at)) db with
    | nil => rw [hf] at h; simp at h
    | cons e rest =>
        rw [hf] at h
        simp at h
        have he : e ∈ List.filter _ db := hf ▸ List.mem_cons_self e rest
        rw [List.mem_filter] at he
        obtain ⟨hmem, hp⟩ := he
        rw [Bool.and_eq_true, beq_iff_eq, decide_eq_true_eq] at hp
        exact ⟨e, hmem, hp.1, h, hp.2⟩
  · rw [Bool.not_eq_true] at hc
    rw [hc] at h
    simp at h

/-- C2 witness: a concrete unexpired hit is traced back to its row. -/
theorem get_returns_only_unexpired_witness :
    ∃ e ∈ dbHit, e.cache_key = _generate_cache_key msgsW "gpt-4o-mini" "0.2" 500 ∧
      e.response = "cached" ∧ (0 : Int) < e.expires_at :=
  get_returns_only_unexpired cfgOn dbHit 0 msgsW "gpt-4o-mini" "0.2" 500 "cached"
    (by decide)

/-- C5 counterexample: with caching enabled, a storage fault during
`APICache.get` is raised to the caller, not reported as a miss, and a
storage fault during `APICache.set` is raised, not swallowed. -/
theorem storage_error_counterexample :
    APICache.getE cfgOn [] (some "disk error") 0 msgsW "gpt-4o-mini" "0.2" 500 ≠
      .ok none ∧
    APICache.getE cfgOn [] (some "disk error") 0 msgsW "gpt-4o-mini" "0.2" 500 =
      .error "disk error" ∧
    APICache.setE cfgOn [] (some "disk error") 0 msgsW "gpt-4o-mini" "0.2" 500 "v" =
      .error "disk error" := by
  refine ⟨fun h => ?_, rfl, rfl⟩
  exact Except.noConfusion h

/-- C5 (amended): `APICache.get` and `APICache.set` have no storage error
handling — with caching enabled, a storage I/O failure propagates to the
caller of the cache in both operations. -/
theorem storage_error_escalates (cfg : Config) (db : CacheDB) (err : String)
    (now : Int) (messages : List Message) (model temperature : String)
    (max_tokens : Nat) (response : String)
    (hen : cfg.ENABLE_RESPONSE_CACHING = true) :
    APICache.getE cfg db (some err) now messages model temperature max_tokens =
      .error err ∧
    APICache.setE cfg db (some err) now messages model temperature max_tokens response =
      .error err := by
  unfold APICache.getE APICache.setE
  rw [hen]
  exact ⟨rfl, rfl⟩

/-- C5 witness. -/
theorem storage_error_escalates_witness :
    APICache.getE cfgOn [] (some "boom") 0 msgsW "m" "0.2" 100 = .error "boom" ∧
    APICache.setE cfgOn [] (some "boom") 0 msgsW "m" "0.2" 100 "v" = .error "boom" :=
  storage_error_escalates cfgOn [] "boom" 0 msgsW "m" "0.2" 100 "v" rfl

/-- C6 (code bug): `APICache.set` stamps `expires_at` from the naive local
`datetime.now()` while `APICache.get` compares against SQLite's UTC
`CURRENT_TIMESTAMP` — two different clocks. On a host whose local clock
lags UTC by more than the TTL the immediate round-trip fails: here local
time reads 82000 while UTC reads 100000 (a five-hour lag, as in US
Eastern time) and the TTL is the default 60 minutes, so `set` writes the
row with `expires_at = 82000 + 3600 = 85600 < 100000` and the immediate
`get` reports absence instead of the stored value. The third conjunct
shows the row is live on the writer's own clock, isolating the clock
mismatch as the sole cause of the miss. -/
theorem set_then_get_clock_skew_bug :
    (APICache.set cfgOn [] 82000 msgsW "m" "0.2" 100 "v").1 =
      [⟨_generate_cache_key msgsW "m" "0.2" 100, "v", 85600⟩] ∧
    (APICache.get cfgOn (APICache.set cfgOn [] 82000 msgsW "m" "0.2" 100 "v").1
        100000 msgsW "m" "0.2" 100).value = none ∧
    (APICache.get cfgOn (APICache.set cfgOn [] 82000 msgsW "m" "0.2" 100 "v").1
        82000 msgsW "m" "0.2" 100).value = some "v" :=
  ⟨rfl, by decide, by decide⟩

/-- C7: after `cleanup_expired` no expired row remains, no unexpired row is
removed, and a second sweep with no newly expired rows changes nothing. -/
theorem cleanup_expired_correct :
    (∀ (db : CacheDB) (now : Int), ∀ e ∈ cleanup_expired db now, now < e.expires_at) ∧
    (∀ (db : CacheDB) (now : Int), ∀ e ∈ db, now < e.expires_at →
      e ∈ cleanup_expired db now) ∧
    (∀ (db : CacheDB) (now now' : Int),
      (∀ e ∈ cleanup_expired db now, now' < e.expires_at) →
      cleanup_expired (cleanup_expired db now) now' = cleanup_expired db now) := by
  refine ⟨?_, ?_, ?_⟩
  · intro db now e he
    exact of_decide_eq_true (List.mem_filter.mp he).2
  · intro db now e he h
    exact List.mem_filter.mpr ⟨he, decide_eq_true h⟩
  · intro db now now' h
    exact List.filter_eq_self.mpr fun e he => decide_eq_true (h e he)

/-- C7 witness: a concrete sweep keeps the live row and a re-sweep is a
no-op. -/
theorem cleanup_expired_correct_witness :
    (⟨"k", "v", 50⟩ : CacheEntry) ∈ cleanup_expired [⟨"k", "v", 50⟩, ⟨"j", "w", 0⟩] 10 ∧
    cleanup_expired (cleanup_expired [⟨"k", "v", 50⟩, ⟨"j", "w", 0⟩] 10) 20 =
      cleanup_expired [⟨"k", "v", 50⟩, ⟨"j", "w", 0⟩] 10 :=
  ⟨cleanup_expired_correct.2.1 [⟨"k", "v", 50⟩, ⟨"j", "w", 0⟩] 10 ⟨"k", "v", 50⟩
      (List.mem_cons_self _ _) (by decide),
    cleanup_expired_correct.2.2 [⟨"k", "v", 50⟩, ⟨"j", "w", 0⟩] 10 20 (by decide)⟩

/-! ### Auxiliary facts about the retry loop -/

/-- One loop iteration on a retryable outcome: record the failure text,
sleep `0.5 * 1.5 ** attempt` when `attempt < 2`, and continue. -/
lemma callLoop_retry_step (cfg : Config) (db : CacheDB) (local_now : Int)
    (upstream : Nat → Outcome) (messages : List Message) (model temperature : String)
    (max_tokens : Nat) (attempt : Nat) (rest : List Nat) (last : String)
    (h : isRetryable (upstream attempt)) :
    callLoop cfg db local_now upstream messages model temperature max_tokens
        (attempt :: rest) last =
      { callLoop cfg db local_now upstream messages model temperature max_tokens rest
          (failText (upstream attempt)) with
        posts := 1 + (callLoop cfg db local_now upstream messages model temperature
          max_tokens rest (failText (upstream attempt))).posts,
        sleeps := (if attempt < 2 then [(0.5 : ℚ) * 1.5 ^ attempt] else []) ++
          (callLoop cfg db local_now upstream messages model temperature max_tokens rest
            (failText (upstream attempt))).sleeps } := by
  cases ho : upstream attempt with
  | response code text content =>
      rw [ho] at h
      simp only [isRetryable] at h
      have h200 : ¬code = 200 := by
        intro e
        rw [e] at h
        simp [retryableCodes] at h
      simp only [callLoop, ho, failText, if_neg h200, if_pos h]
  | readTimeout msg =>
      simp only [callLoop, ho, failText]
  | connError msg =>
      simp only [callLoop, ho, failText]

/-- With a cache miss and an always-retryable upstream, the call makes the
three posts of `range(3)`, sleeps the two scheduled backoffs, and fails
with the last recorded failure text. -/
lemma call_all_retryable (cfg : Config) (db : CacheDB) (utc_now local_now : Int)
    (upstream : Nat → Outcome) (messages : List Message)
    (temperature : Option String) (max_tokens : Option Nat)
    (hmiss : pyTruthy (APICache.get cfg db utc_now messages cfg.CURRENT_MODEL
        (_optimize_parameters_for_speed cfg temperature max_tokens).1
        (_optimize_parameters_for_speed cfg temperature max_tokens).2).value = false)
    (hretry : ∀ a, isRetryable (upstream a)) :
    (call_ai_api cfg db utc_now local_now upstream messages temperature max_tokens).result =
        .error ("API call failed after retries - " ++ failText (upstream 2)) ∧
    (call_ai_api cfg db utc_now local_now upstream messages temperature max_tokens).posts = 3 ∧
    (call_ai_api cfg db utc_now local_now upstream messages temperature max_tokens).sleeps =
        [(0.5 : ℚ) * 1.5 ^ 0, (0.5 : ℚ) * 1.5 ^ 1] := by
  have hr : List.range 3 = [0, 1, 2] := rfl
  simp only [call_ai_api, hmiss, Bool.false_eq_true, if_false, hr]
  rw [callLoop_retry_step cfg db local_now upstream messages _ _ _ 0 [1, 2] "" (hretry 0),
    callLoop_retry_step cfg db local_now upstream messages _ _ _ 1 [2] _ (hretry 1),
    callLoop_retry_step cfg db local_now upstream messages _ _ _ 2 [] _ (hretry 2)]
  simp only [callLoop]
  norm_num

/-- A nonempty attempt list always posts at least once. -/
lemma callLoop_posts_pos (cfg : Config) (db : CacheDB) (local_now : Int)
    (upstream : Nat → Outcome) (messages : List Message) (model temperature : String)
    (max_tokens : Nat) (attempt : Nat) (rest : List Nat) (last : String) :
    1 ≤ (callLoop cfg db local_now upstream messages model temperature max_tokens
      (attempt :: rest) last).posts := by
  simp only [callLoop]
  cases ho : upstream attempt with
  | response code text content =>
      by_cases h200 : code = 200
      · simp [h200]
      · by_cases hr : code ∈ retryableCodes
        · simp [h200, hr]
        · simp [h200, hr]
  | readTimeout msg =>
      simp
  | connError msg =>
      simp

/-- With caching disabled the loop never opens a storage connection: the
only storage operation, the `set` on success, is itself a no-op. -/
lemma callLoop_storeAccesses_disabled (cfg : Config) (db : CacheDB) (local_now : Int)
    (upstream : Nat → Outcome) (messages : List Message) (model temperature : String)
    (max_tokens : Nat) (hdis : cfg.ENABLE_RESPONSE_CACHING = false) :
    ∀ (attempts : List Nat) (last : String),
      (callLoop cfg db local_now upstream messages model temperature max_tokens
        attempts last).storeAccesses = 0 := by
  intro attempts
  induction attempts with
  | nil => intro last; simp [callLoop]
  | cons attempt rest ih =>
      intro last
      simp only [callLoop]
      cases ho : upstream attempt with
      | response code text content =>
          by_cases h200 : code = 200
          · simp [h200, APICache.set, hdis]
          · by_cases hr : code ∈ retryableCodes
            · simp [h200, hr, ih]
            · simp [h200, hr]
      | readTimeout msg => simp [ih]
      | connError msg => simp [ih]

/-! ### Claim theorems: the resilient client -/

/-- C3: when every upstream attempt is retryable (retryable status, read
timeout or connection error) and the cache misses, `call_ai_api` fails
after exactly the 3 loop attempts with an error carrying the last observed
failure reason, having slept `0.5 * 1.5 ** attempt` between consecutive
attempts. -/
theorem call_retries_exhausted (cfg : Config) (db : CacheDB) (utc_now local_now : Int)
    (upstream : Nat → Outcome) (messages : List Message)
    (temperature : Option String) (max_tokens : Option Nat)
    (hmiss : pyTruthy (APICache.get cfg db utc_now messages cfg.CURRENT_MODEL
        (_optimize_parameters_for_speed cfg temperature max_tokens).1
        (_optimize_parameters_for_speed cfg temperature max_tokens).2).value = false)
    (hretry : ∀ a, isRetryable (upstream a)) :
    (call_ai_api cfg db utc_now local_now upstream messages temperature
        max_tokens).result =
      .error ("API call failed after retries - " ++ failText (upstream 2)) ∧
    (call_ai_api cfg db utc_now local_now upstream messages temperature
        max_tokens).posts = 3 ∧
    (call_ai_api cfg db utc_now local_now upstream messages temperature
        max_tokens).sleeps =
      List.map (fun attempt => (0.5 : ℚ) * 1.5 ^ attempt) [0, 1] :=
  call_all_retryable cfg db utc_now local_now upstream messages temperature max_tokens
    hmiss hretry

/-- C3 witness: an upstream that always times out. -/
theorem call_retries_exhausted_witness :
    (call_ai_api cfgOn [] 0 0 (fun _ => .readTimeout "timed out")
        msgsW none none).result =
      .error ("API call failed after retries - " ++ failText (.readTimeout "timed out")) ∧
    (call_ai_api cfgOn [] 0 0 (fun _ => .readTimeout "timed out")
        msgsW none none).posts = 3 ∧
    (call_ai_api cfgOn [] 0 0 (fun _ => .readTimeout "timed out")
        msgsW none none).sleeps =
      List.map (fun attempt => (0.5 : ℚ) * 1.5 ^ attempt) [0, 1] :=
  call_retries_exhausted cfgOn [] 0 0 (fun _ => .readTimeout "timed out") msgsW none none
    (by decide) (fun _ => trivial)

/-- C4 counterexample: status 501 is a 5xx code, yet the code treats it as
terminal — with an always-501 upstream the call fails on the first attempt
(one post, no backoff) instead of retrying. -/
theorem status_5xx_counterexample :
    (call_ai_api cfgOn [] 0 0 (fun _ => .response 501 "Not Implemented" "")
        msgsW none none).posts = 1 ∧
    (call_ai_api cfgOn [] 0 0 (fun _ => .response 501 "Not Implemented" "")
        msgsW none none).sleeps = [] ∧
    (call_ai_api cfgOn [] 0 0 (fun _ => .response 501 "Not Implemented" "")
        msgsW none none).result = .error "API call failed: 501 - Not Implemented" :=
  ⟨rfl, rfl, rfl⟩

/-- C4 (amended): exactly the codes of the tuple `(429, 500, 502, 503,
504)` are retryable; every other non-200 status (including other 5xx codes
such as 501) makes `call_ai_api` fail immediately, with no further attempt
and no backoff, with a terminal error carrying the status code and the
response body. -/
theorem call_status_classification (cfg : Config) (db : CacheDB)
    (utc_now local_now : Int) (messages : List Message)
    (temperature : Option String) (max_tokens : Option Nat)
    (code : Nat) (body content : String)
    (hmiss : pyTruthy (APICache.get cfg db utc_now messages cfg.CURRENT_MODEL
        (_optimize_parameters_for_speed cfg temperature max_tokens).1
        (_optimize_parameters_for_speed cfg temperature max_tokens).2).value = false)
    (hcode : code ≠ 200) :
    (code ∈ retryableCodes →
      (call_ai_api cfg db utc_now local_now (fun _ => .response code body content)
          messages temperature max_tokens).posts = 3 ∧
      (call_ai_api cfg db utc_now local_now (fun _ => .response code body content)
          messages temperature max_tokens).result =
        .error ("API call failed after retries - HTTP " ++ toString code ++ ": " ++ body)) ∧
    (code ∉ retryableCodes →
      (call_ai_api cfg db utc_now local_now (fun _ => .response code body content)
          messages temperature max_tokens).posts = 1 ∧
      (call_ai_api cfg db utc_now local_now (fun _ => .response code body content)
          messages temperature max_tokens).sleeps = [] ∧
      (call_ai_api cfg db utc_now local_now (fun _ => .response code body content)
          messages temperature max_tokens).result =
        .error ("API call failed: " ++ toString code ++ " - " ++ body)) := by
  constructor
  · intro hin
    obtain ⟨h1, h2, -⟩ := call_all_retryable cfg db utc_now local_now
      (fun _ => .response code body content) messages temperature max_tokens hmiss
      fun _ => hin
    exact ⟨h2, h1⟩
  · intro hout
    have hr : List.range 3 = [0, 1, 2] := rfl
    refine ⟨?_, ?_, ?_⟩ <;>
      simp [call_ai_api, hmiss, hr, callLoop, if_neg hcode, if_neg hout]

/-- C4 witness: 503 is retried to exhaustion, 404 is terminal at once. -/
theorem call_status_classification_witness :
    (call_ai_api cfgOn [] 0 0 (fun _ => .response 503 "overloaded" "")
        msgsW none none).posts = 3 ∧
    (call_ai_api cfgOn [] 0 0 (fun _ => .response 404 "missing" "")
        msgsW none none).posts = 1 :=
  ⟨((call_status_classification cfgOn [] 0 0 msgsW none none 503 "overloaded" ""
      (by decide) (by decide)).1 (by decide)).1,
    ((call_status_classification cfgOn [] 0 0 msgsW none none 404 "missing" ""
      (by decide) (by decide)).2 (by decide)).1⟩

/-- C8 counterexample: an unexpired entry whose stored value is the empty
string makes the cache report a hit, yet `call_ai_api` still performs the
upstream network call. -/
theorem cache_hit_empty_counterexample :
    (APICache.get cfgOn dbEmptyHit 0 msgsW cfgOn.CURRENT_MODEL "0.2" 500).value =
      some "" ∧
    (call_ai_api cfgOn dbEmptyHit 0 0 (fun _ => .response 200 "ok" "fresh")
        msgsW none none).posts = 1 := by
  constructor
  · decide
  · decide

/-- C8 (amended): for every request for which the cache reports a hit with
a non-empty value, `call_ai_api` returns the cached value immediately, with
no upstream post, no backoff and no change to the store. -/
theorem cache_hit_short_circuits (cfg : Config) (db : CacheDB)
    (utc_now local_now : Int) (upstream : Nat → Outcome) (messages : List Message)
    (temperature : Option String) (max_tokens : Option Nat) (v : String)
    (hhit : (APICache.get cfg db utc_now messages cfg.CURRENT_MODEL
        (_optimize_parameters_for_speed cfg temperature max_tokens).1
        (_optimize_parameters_for_speed cfg temperature max_tokens).2).value = some v)
    (hne : v ≠ "") :
    (call_ai_api cfg db utc_now local_now upstream messages temperature
        max_tokens).result = .ok v ∧
    (call_ai_api cfg db utc_now local_now upstream messages temperature
        max_tokens).posts = 0 ∧
    (call_ai_api cfg db utc_now local_now upstream messages temperature
        max_tokens).sleeps = [] ∧
    (call_ai_api cfg db utc_now local_now upstream messages temperature
        max_tokens).db = db := by
  have ht : pyTruthy (some v) = true := by
    simp [pyTruthy, hne]
  refine ⟨?_, ?_, ?_, ?_⟩ <;> simp [call_ai_api, hhit, ht]

/-- C8 witness: a concrete non-empty hit is served from the cache. -/
theorem cache_hit_short_circuits_witness :
    (call_ai_api cfgOn dbHit 0 0 (fun _ => .readTimeout "unreachable")
        msgsW none none).result = .ok "cached" ∧
    (call_ai_api cfgOn dbHit 0 0 (fun _ => .readTimeout "unreachable")
        msgsW none none).posts = 0 :=
  have h := cache_hit_short_circuits cfgOn dbHit 0 0 (fun _ => .readTimeout "unreachable")
    msgsW none none "cached" (by decide) (by decide)
  ⟨h.1, h.2.1⟩

/-- C9: with caching disabled, `APICache.get` reports absent and
`APICache.set` is a no-op, both with zero storage accesses, and every
`call_ai_api` invocation reaches the upstream (at least one post) while
still never touching storage. -/
theorem caching_disabled_behavior (cfg : Config)
    (hdis : cfg.ENABLE_RESPONSE_CACHING = false) (db : CacheDB)
    (utc_now local_now : Int) (upstream : Nat → Outcome) (messages : List Message)
    (model temperature : String) (max_tokens : Nat) (response : String)
    (tempOpt : Option String) (maxOpt : Option Nat) :
    APICache.get cfg db utc_now messages model temperature max_tokens = ⟨none, 0⟩ ∧
    APICache.set cfg db local_now messages model temperature max_tokens response =
      (db, 0) ∧
    (call_ai_api cfg db utc_now local_now upstream messages tempOpt
        maxOpt).storeAccesses = 0 ∧
    1 ≤ (call_ai_api cfg db utc_now local_now upstream messages tempOpt maxOpt).posts := by
  have hget : ∀ (t : String) (m : Nat),
      APICache.get cfg db utc_now messages model t m = ⟨none, 0⟩ := by
    intro t m
    simp [APICache.get, hdis]
  refine ⟨hget temperature max_tokens, by simp [APICache.set, hdis], ?_, ?_⟩
  · simp only [call_ai_api, APICache.get, hdis, Bool.not_false, if_true, pyTruthy,
      Bool.false_eq_true, if_false]
    rw [Nat.zero_add]
    exact callLoop_storeAccesses_disabled cfg db local_now upstream messages _ _ _
      hdis _ _
  · simp only [call_ai_api, APICache.get, hdis, Bool.not_false, if_true, pyTruthy,
      Bool.false_eq_true, if_false]
    exact callLoop_posts_pos cfg db local_now upstream messages _ _ _ 0 [1, 2] ""

/-- C9 witness. -/
theorem caching_disabled_behavior_witness :
    APICache.get cfgOff dbHit 0 msgsW "m" "0.2" 100 = ⟨none, 0⟩ ∧
    APICache.set cfgOff dbHit 0 msgsW "m" "0.2" 100 "v" = (dbHit, 0) ∧
    (call_ai_api cfgOff dbHit 0 0 (fun _ => .response 200 "ok" "fresh")
        msgsW none none).storeAccesses = 0 ∧
    1 ≤ (call_ai_api cfgOff dbHit 0 0 (fun _ => .response 200 "ok" "fresh")
        msgsW none none).posts :=
  caching_disabled_behavior cfgOff rfl dbHit 0 0 (fun _ => .response 200 "ok" "fresh")
    msgsW "m" "0.2" 100 "v" none none

/-- C10: when the stored cache value for the request is the empty string,
the truthiness test of `call_ai_api` treats the (unexpired) hit as a miss
and the upstream network call is performed. -/
theorem empty_cached_value_reaches_upstream (cfg : Config) (db : CacheDB)
    (utc_now local_now : Int) (upstream : Nat → Outcome) (messages : List Message)
    (temperature : Option String) (max_tokens : Option Nat)
    (hhit : (APICache.get cfg db utc_now messages cfg.CURRENT_MODEL
        (_optimize_parameters_for_speed cfg temperature max_tokens).1
        (_optimize_parameters_for_speed cfg temperature max_tokens).2).value = some "") :
    1 ≤ (call_ai_api cfg db utc_now local_now upstream messages temperature
      max_tokens).posts := by
  have hf : pyTruthy (APICache.get cfg db utc_now messages cfg.CURRENT_MODEL
      (_optimize_parameters_for_speed cfg temperature max_tokens).1
      (_optimize_parameters_for_speed cfg temperature max_tokens).2).value = false := by
    rw [hhit]
    rfl
  have hr : List.range 3 = [0, 1, 2] := rfl
  simp only [call_ai_api, hf, Bool.false_eq_true, if_false, hr]
  exact callLoop_posts_pos cfg db local_now upstream messages _ _ _ 0 [1, 2] ""

/-- C10 witness: the concrete empty-string entry of `dbEmptyHit` is an
unexpired hit, and the upstream is still called. -/
theorem empty_cached_value_reaches_upstream_witness :
    1 ≤ (call_ai_api cfgOn dbEmptyHit 0 0 (fun _ => .response 200 "ok" "fresh")
        msgsW none none).posts :=
  empty_cached_value_reaches_upstream cfgOn dbEmptyHit 0 0
    (fun _ => .response 200 "ok" "fresh") msgsW none none (by decide)

/-- C1: the cache key is a pure function of the request that is insensitive
to dict field order — two requests that agree field-for-field up to the
ordering of each conversation turn's (distinct-keyed) fields get the same
key — while permuting the conversation-turn list itself can change the
key, exhibited on a concrete pair of reordered turn lists. -/
theorem cache_key_canonical :
    (∀ (msgs1 msgs2 : List Message) (model temperature : String) (max_tokens : Nat),
      List.Forall₂ (fun a b => a.Perm b) msgs1 msgs2 →
      (∀ m ∈ msgs1, (m.map Prod.fst).Nodup) →
      _generate_cache_key msgs1 model temperature max_tokens =
        _generate_cache_key msgs2 model temperature max_tokens) ∧
    (∃ (msgs1 msgs2 : List Message) (model temperature : String) (max_tokens : Nat),
      msgs1.Perm msgs2 ∧
      _generate_cache_key msgs1 model temperature max_tokens ≠
        _generate_cache_key msgs2 model temperature max_tokens) := by
  constructor
  · intro msgs1 msgs2 model temperature max_tokens h hnd
    unfold _generate_cache_key cache_string
    rw [dumpMessages_eq_of_perm h hnd]
  · refine ⟨[[("role", "a")], [("role", "b")]], [[("role", "b")], [("role", "a")]],
      "m", "0.2", 100, List.Perm.swap _ _ _, ?_⟩
    decide

/-- C1 witness: reordering the fields inside one conversation turn leaves
the key unchanged. -/
theorem cache_key_canonical_witness :
    _generate_cache_key [[("role", "user"), ("content", "hi")]] "m" "0.2" 100 =
      _generate_cache_key [[("content", "hi"), ("role", "user")]] "m" "0.2" 100 :=
  cache_key_canonical.1 [[("role", "user"), ("content", "hi")]]
    [[("content", "hi"), ("role", "user")]] "m" "0.2" 100
    (List.Forall₂.cons (List.Perm.swap _ _ _) List.Forall₂.nil) (by decide)
